import Mathlib

/-!
# eventsource: the Stream registry and fan-out of `stream.go`

A shallow embedding of `stream.go`.

* Pointers are modelled by what the code compares them for: a `*Client` and an
  `*Event` are natural numbers (their identity), a `*registeredClient` and a
  `*list.Element` are positions in the client list (the list only ever grows at
  the back, so a position names the same handle for good), `nil` is `none`.
* The `sync.RWMutex` is explicit state: the number of read locks held, whether
  the write lock is held, and the number of writers parked in `Lock`.  A call
  that parks forever ends in `Outcome.blocked`, carrying the state it left
  behind for the other goroutines.
* Calls that overlap are written as the interleaving of their steps: the
  lookup `getClient` of each call, then the `addClient` each goes on to.
* The two `for` loops of `Broadcast` and `Publish` take fuel, the number of
  iterations observed; `Fanout.finished` tells whether the loop condition
  became false within the fuel.
-/

namespace eventsource

/-- Identity of a `*Client`. -/
abbrev Client := Nat

/-- Identity of an `*Event`. -/
abbrev Event := Nat

/-- Read `m[k]` of a `map[string]bool`: a missing key reads as `false`. -/
def topicsGet : List (String × Bool) → String → Bool
  | [], _ => false
  | (k', v) :: rest, k => if k' = k then v else topicsGet rest k

/-- Assignment `m[k] = v` of a `map[string]bool`. -/
def topicsSet : List (String × Bool) → String → Bool → List (String × Bool)
  | [], k, v => [(k, v)]
  | (k', v') :: rest, k, v =>
    if k' = k then (k, v) :: rest else (k', v') :: topicsSet rest k v

/-- The struct `registeredClient`. -/
structure registeredClient where
  c : Client
  topics : List (String × Bool)
  deriving DecidableEq

/-- State of a `sync.RWMutex`. -/
structure RWMutex where
  readers : Nat
  writer : Bool
  waiting : Nat
  deriving DecidableEq

/-- A channel of events that has been made: its buffer and whether it is closed. -/
structure Chan where
  buf : List Event
  closed : Bool
  deriving DecidableEq

/-- The struct `Stream` (the hook field `clientConnectHook` is left out: none of
the operations below reads or writes it). A `nil` channel is `none`. -/
structure Stream where
  clients : List registeredClient
  listLock : RWMutex
  broadcast : Option Chan
  shutdownWait : Int
  deriving DecidableEq

/-- How a call on the stream ends: it returns a value, it parks forever on the
lock, or it panics. Each case carries the stream as the call left it. -/
inductive Outcome (α : Type) where
  | returned (s : Stream) (a : α)
  | blocked (s : Stream)
  | panicked (s : Stream)
  deriving DecidableEq

/-- The stream a call leaves behind. -/
def Outcome.stream {α : Type} : Outcome α → Stream
  | .returned s _ => s
  | .blocked s => s
  | .panicked s => s

/-- Whether the call returned to its caller. -/
def Outcome.isReturned {α : Type} : Outcome α → Bool
  | .returned _ _ => true
  | _ => false

/-- Sequencing of two statements: the second runs only if the first returned. -/
def Outcome.andThen {α β : Type} (o : Outcome α) (f : Stream → α → Outcome β) : Outcome β :=
  match o with
  | .returned s a => f s a
  | .blocked s => .blocked s
  | .panicked s => .panicked s

/-- The value of `&Stream{}`, which is what `New` returns: an empty list, a
free lock, a nil channel and a zero wait group. -/
def New : Stream :=
  { clients := [], listLock := { readers := 0, writer := false, waiting := 0 },
    broadcast := none, shutdownWait := 0 }

/-! ## sync.RWMutex on `s.listLock` -/

/-- The call `s.listLock.RLock()`: parks while the write lock is held or a
writer is waiting, else takes one more read lock. -/
def RLock (s : Stream) : Outcome Unit :=
  if s.listLock.writer = true ∨ 0 < s.listLock.waiting then .blocked s
  else .returned { s with listLock := { s.listLock with readers := s.listLock.readers + 1 } } ()

/-- The call `s.listLock.RUnlock()`: gives one read lock back; a run-time error
when none is held. -/
def RUnlock (s : Stream) : Outcome Unit :=
  if s.listLock.readers = 0 then .panicked s
  else .returned { s with listLock := { s.listLock with readers := s.listLock.readers - 1 } } ()

/-- The call `s.listLock.Lock()`: parks while the lock is held for reading or
writing, else takes the write lock. -/
def Lock (s : Stream) : Outcome Unit :=
  if s.listLock.writer = true ∨ 0 < s.listLock.readers then
    .blocked { s with listLock := { s.listLock with waiting := s.listLock.waiting + 1 } }
  else .returned { s with listLock := { s.listLock with writer := true } } ()

/-- The call `s.listLock.Unlock()`: releases the write lock; a run-time error
when it is not held. -/
def Unlock (s : Stream) : Outcome Unit :=
  if s.listLock.writer = false then .panicked s
  else .returned { s with listLock := { s.listLock with writer := false } } ()

/-! ## container/list on `s.clients` -/

/-- The call `l.Front()`: the first element, or nil when the list is empty. -/
def Front (l : List registeredClient) : Option Nat :=
  if l.length = 0 then none else some 0

/-- The call `element.Next()`: the following element, or nil at the end. -/
def Next (l : List registeredClient) (element : Nat) : Option Nat :=
  if element + 1 < l.length then some (element + 1) else none

/-- The call `l.PushBack(v)`. -/
def PushBack (l : List registeredClient) (v : registeredClient) : List registeredClient :=
  l ++ [v]

/-- Write through a `*registeredClient`: replace the handle at a position. -/
def updateAt : List registeredClient → Nat → (registeredClient → registeredClient) →
    List registeredClient
  | [], _, _ => []
  | h :: rest, 0, f => f h :: rest
  | h :: rest, n + 1, f => h :: updateAt rest n f

/-! ## The registry operations -/

/-- The method `Stream.getClient`. The read lock is taken only when the list is
not empty, only the front element is compared with `c`, and `RUnlock` is called
only on the branch that found it. -/
def getClient (c : Client) (s : Stream) : Outcome (Option Nat) :=
  if 0 < s.clients.length then
    (RLock s).andThen fun s1 _ =>
      match Front s1.clients with
      | none => .panicked s1
      | some listItem =>
        match s1.clients.get? listItem with
        | none => .panicked s1
        | some regCli =>
          if regCli.c = c then
            (RUnlock s1).andThen fun s2 _ => .returned s2 (some listItem)
          else .returned s1 none
  else .returned s none

/-- The method `Stream.addClient`: `Lock`, `PushBack` of a handle with an empty
topic map, `Unlock`. The source declares a `*registeredClient` result and has no
return statement, so the model gives the effect on the stream only; a caller
that uses the result takes it as a parameter (see `Subscribe`). -/
def addClient (c : Client) (s : Stream) : Outcome Unit :=
  (Lock s).andThen fun s1 _ =>
    Unlock { s1 with clients := PushBack s1.clients { c := c, topics := [] } }

/-- The method `Stream.Register`. -/
def Register (c : Client) (s : Stream) : Outcome Unit :=
  (getClient c s).andThen fun s1 cli =>
    if cli ≠ none then .returned s1 () else addClient c s1

/-- The assignment `cli.topics[topic] = v` through a handle pointer: a nil
pointer dereference panics. -/
def setTopic (cli : Option Nat) (topic : String) (v : Bool) (s : Stream) : Outcome Unit :=
  match cli with
  | none => .panicked s
  | some r =>
    let written := updateAt s.clients r fun h => { h with topics := topicsSet h.topics topic v }
    .returned { s with clients := written } ()

/-- The method `Stream.Subscribe`. `added` stands for the value of the call
`s.addClient(c)`, which the source leaves without a return statement. -/
def Subscribe (added : Option Nat) (topic : String) (c : Client) (s : Stream) : Outcome Unit :=
  (getClient c s).andThen fun s1 cli =>
    (if cli = none then (addClient c s1).andThen fun s2 _ => .returned s2 added
     else .returned s1 cli).andThen fun s2 cli2 =>
      setTopic cli2 topic true s2

/-- The method `Stream.Unsubscribe`. -/
def Unsubscribe (topic : String) (c : Client) (s : Stream) : Outcome Unit :=
  (getClient c s).andThen fun s1 cli =>
    if cli = none then .returned s1 () else setTopic cli topic false s1

/-- The method `Stream.Shutdown`: its body is empty. -/
def Shutdown (s : Stream) : Outcome Unit := .returned s ()

/-- The method `Stream.CloseTopic`: its body is empty. -/
def CloseTopic (_topic : String) (s : Stream) : Outcome Unit := .returned s ()

/-! ## Fan-out -/

/-- What a fan-out loop did within its fuel: the `Send` calls it made, in
order, each as the pair of the receiving client and the event, and whether the
loop ended. -/
structure Fanout where
  sends : List (Client × Event)
  finished : Bool
  panicked : Bool
  deriving DecidableEq

/-- Modelled from the spec: `Client.Send` (the file declaring `Client` is not
among the sources) is the Sink's `deliver`; one call is recorded as one entry
of the delivery log. -/
def Send (c : Client) (e : Event) (log : List (Client × Event)) : List (Client × Event) :=
  log ++ [(c, e)]

/-- The loop of `Stream.Broadcast`,
`for element := s.clients.Front(); element != nil; element.Next()`.
The post statement calls `Next` and drops its result, so `element` is the same
in the next iteration. -/
def broadcastLoop (e : Event) (l : List registeredClient) :
    Nat → Option Nat → List (Client × Event) → Fanout
  | _, none, log => { sends := log, finished := true, panicked := false }
  | 0, some _, log => { sends := log, finished := false, panicked := false }
  | fuel + 1, some element, log =>
    match l.get? element with
    | none => { sends := log, finished := false, panicked := true }
    | some cli =>
      let log1 := Send cli.c e log
      let _dropped := Next l element
      broadcastLoop e l fuel (some element) log1

/-- The method `Stream.Broadcast`, observed for `fuel` iterations. -/
def Broadcast (fuel : Nat) (e : Event) (s : Stream) : Fanout :=
  broadcastLoop e s.clients fuel (Front s.clients) []

/-- The loop of `Stream.Publish`; the same loop header as in `Broadcast`, with
the `Send` guarded by `cli.topics[topic]`. -/
def publishLoop (topic : String) (e : Event) (l : List registeredClient) :
    Nat → Option Nat → List (Client × Event) → Fanout
  | _, none, log => { sends := log, finished := true, panicked := false }
  | 0, some _, log => { sends := log, finished := false, panicked := false }
  | fuel + 1, some element, log =>
    match l.get? element with
    | none => { sends := log, finished := false, panicked := true }
    | some cli =>
      let log1 := if topicsGet cli.topics topic = true then Send cli.c e log else log
      let _dropped := Next l element
      publishLoop topic e l fuel (some element) log1

/-- The method `Stream.Publish`, observed for `fuel` iterations. -/
def Publish (fuel : Nat) (topic : String) (e : Event) (s : Stream) : Fanout :=
  publishLoop topic e s.clients fuel (Front s.clients) []

/-- Number of times `Send(e)` was called on client `c` in a delivery log. -/
def deliveries (log : List (Client × Event)) (c : Client) (e : Event) : Nat :=
  log.count (c, e)

/-- Number of handles in the list whose client is `c`. -/
def handlesOf (l : List registeredClient) (c : Client) : Nat :=
  (l.filter fun h => h.c = c).length

/-- Whether some handle for client `c` has `t` in its interest set. -/
def interested (l : List registeredClient) (c : Client) (t : String) : Bool :=
  l.any fun h => decide (h.c = c) && topicsGet h.topics t

/-! ## Delivery against sinks of known status -/

/-- Modelled from the spec: what `Client.Send` reports back, the Sink's
`deliver(event) -> ok | closed`. -/
inductive SinkStatus where
  | ok
  | closed
  deriving DecidableEq

/-- Modelled from the spec: `Client.Send` on sinks of known status. The call is
recorded in the delivery log as by `Send`, and the status of the client's sink
is what it reports. -/
def SendTo (sink : Client → SinkStatus) (c : Client) (e : Event) (log : List (Client × Event)) :
    List (Client × Event) × SinkStatus :=
  (Send c e log, sink c)

/-- A delivery pass: what the loop did, and the stream as the method left it. -/
structure Pass where
  fanout : Fanout
  stream : Stream

/-- The loop of `Stream.Broadcast` with the report of each `Send` made explicit.
`cli.c.Send(e)` is an expression statement, so the report is dropped, and no
statement of the body writes to the stream. -/
def broadcastLoopTo (sink : Client → SinkStatus) (e : Event) (s : Stream) :
    Nat → Option Nat → List (Client × Event) → Pass
  | _, none, log => { fanout := { sends := log, finished := true, panicked := false }, stream := s }
  | 0, some _, log =>
    { fanout := { sends := log, finished := false, panicked := false }, stream := s }
  | fuel + 1, some element, log =>
    match s.clients.get? element with
    | none => { fanout := { sends := log, finished := false, panicked := true }, stream := s }
    | some cli =>
      let reported := SendTo sink cli.c e log
      let _dropped := Next s.clients element
      broadcastLoopTo sink e s fuel (some element) reported.1

/-- The method `Stream.Broadcast` against sinks of known status. -/
def BroadcastTo (sink : Client → SinkStatus) (fuel : Nat) (e : Event) (s : Stream) : Pass :=
  broadcastLoopTo sink e s fuel (Front s.clients) []

/-- The loop of `Stream.Publish` with the report of each `Send` made explicit
and dropped, as in `broadcastLoopTo`. -/
def publishLoopTo (sink : Client → SinkStatus) (topic : String) (e : Event) (s : Stream) :
    Nat → Option Nat → List (Client × Event) → Pass
  | _, none, log => { fanout := { sends := log, finished := true, panicked := false }, stream := s }
  | 0, some _, log =>
    { fanout := { sends := log, finished := false, panicked := false }, stream := s }
  | fuel + 1, some element, log =>
    match s.clients.get? element with
    | none => { fanout := { sends := log, finished := false, panicked := true }, stream := s }
    | some cli =>
      let log1 := if topicsGet cli.topics topic = true then (SendTo sink cli.c e log).1 else log
      let _dropped := Next s.clients element
      publishLoopTo sink topic e s fuel (some element) log1

/-- The method `Stream.Publish` against sinks of known status. -/
def PublishTo (sink : Client → SinkStatus) (fuel : Nat) (topic : String) (e : Event)
    (s : Stream) : Pass :=
  publishLoopTo sink topic e s fuel (Front s.clients) []

/-! ## The dispatcher loop -/

/-- What the receive `ev, ok := <-s.broadcast` yields. -/
inductive Recv where
  | value (ev : Event) (rest : Chan)
  | closed
  | parked
  deriving DecidableEq

/-- The receive `ev, ok := <-s.broadcast`: a nil channel parks the receiver for
ever; a buffered value is handed over, also after the close; an empty closed
channel gives `ok = false`; an empty open channel parks the receiver. -/
def recv : Option Chan → Recv
  | none => .parked
  | some ch =>
    match ch.buf with
    | ev :: rest => .value ev { ch with buf := rest }
    | [] => if ch.closed = true then .closed else .parked

/-- The call `s.shutdownWait.Done()`: the counter goes down by one, and a
counter below zero is a panic. -/
def Done (s : Stream) : Outcome Unit :=
  if s.shutdownWait - 1 < 0 then .panicked { s with shutdownWait := s.shutdownWait - 1 }
  else .returned { s with shutdownWait := s.shutdownWait - 1 } ()

/-- The method `Stream.sendAll`: its body is empty, so the stream and the
delivery log pass through. -/
def sendAll (_ev : Event) (s : Stream) (log : List (Client × Event)) :
    Stream × List (Client × Event) :=
  (s, log)

/-- What the dispatcher loop did within its fuel: how it ended (`none` while it
is still looping) and the `Send` calls made. -/
structure Dispatch where
  ending : Option (Outcome Unit)
  sends : List (Client × Event)
  deriving DecidableEq

/-- The loop of `Stream.run`, observed for `fuel` iterations. -/
def runLoop : Nat → Stream → List (Client × Event) → Dispatch
  | 0, _, log => { ending := none, sends := log }
  | fuel + 1, s, log =>
    match recv s.broadcast with
    | .parked => { ending := some (.blocked s), sends := log }
    | .closed => { ending := some (Done s), sends := log }
    | .value ev rest =>
      let after := sendAll ev { s with broadcast := some rest } log
      runLoop fuel after.1 after.2

/-- The method `Stream.run`, observed for `fuel` iterations. -/
def run (fuel : Nat) (s : Stream) : Dispatch :=
  runLoop fuel s []

end eventsource

namespace eventsource

/-! ## Fan-out: the loops never leave the front element -/

theorem broadcastLoop_stays (e : Event) (l : List registeredClient) (i : Nat)
    (h : registeredClient) (hi : l.get? i = some h) (fuel : Nat) (log : List (Client × Event)) :
    broadcastLoop e l fuel (some i) log =
      { sends := log ++ List.replicate fuel (h.c, e), finished := false, panicked := false } := by
  induction fuel generalizing log with
  | zero => simp [broadcastLoop]
  | succ n ih =>
    simp only [broadcastLoop, hi, Send]
    rw [ih]
    simp [List.replicate_succ]

theorem publishLoop_stays (t : String) (e : Event) (l : List registeredClient) (i : Nat)
    (h : registeredClient) (hi : l.get? i = some h) (fuel : Nat) (log : List (Client × Event)) :
    publishLoop t e l fuel (some i) log =
      { sends := log ++ (if topicsGet h.topics t = true then List.replicate fuel (h.c, e) else []),
        finished := false, panicked := false } := by
  induction fuel generalizing log with
  | zero => simp [publishLoop]
  | succ n ih =>
    simp only [publishLoop, hi, Send]
    rw [ih]
    by_cases ht : topicsGet h.topics t = true
    · simp [ht, List.replicate_succ]
    · simp [ht]

/-- On a registry that is not empty `Broadcast` never ends: after any number of
iterations it has sent the event that many times to the front client and to
nobody else. -/
theorem Broadcast_nonempty (h : registeredClient) (rest : List registeredClient) (lk : RWMutex)
    (ch : Option Chan) (w : Int) (fuel : Nat) (e : Event) :
    Broadcast fuel e { clients := h :: rest, listLock := lk, broadcast := ch, shutdownWait := w } =
      { sends := List.replicate fuel (h.c, e), finished := false, panicked := false } := by
  have := broadcastLoop_stays e (h :: rest) 0 h rfl fuel []
  simpa [Broadcast, Front] using this

/-- On a registry that is not empty `Publish` never ends: it sends to the front
client at every iteration when that client is subscribed, and never sends
otherwise. -/
theorem Publish_nonempty (h : registeredClient) (rest : List registeredClient) (lk : RWMutex)
    (ch : Option Chan) (w : Int) (fuel : Nat) (t : String) (e : Event) :
    Publish fuel t e { clients := h :: rest, listLock := lk, broadcast := ch, shutdownWait := w } =
      { sends := if topicsGet h.topics t = true then List.replicate fuel (h.c, e) else [],
        finished := false, panicked := false } := by
  have := publishLoop_stays t e (h :: rest) 0 h rfl fuel []
  simpa [Publish, Front] using this

/-- On the empty registry both loops end at once without a `Send`. -/
theorem fanout_empty (lk : RWMutex) (ch : Option Chan) (w : Int) (fuel : Nat) (t : String)
    (e : Event) :
    Broadcast fuel e { clients := [], listLock := lk, broadcast := ch, shutdownWait := w } =
      { sends := [], finished := true, panicked := false } ∧
    Publish fuel t e { clients := [], listLock := lk, broadcast := ch, shutdownWait := w } =
      { sends := [], finished := true, panicked := false } := by
  constructor
  · cases fuel <;> simp [Broadcast, Front, broadcastLoop]
  · cases fuel <;> simp [Publish, Front, publishLoop]

/-! ## Lookup -/

theorem getClient_empty (c : Client) (s : Stream) (hcl : s.clients = []) :
    getClient c s = .returned s none := by
  simp [getClient, hcl]

theorem getClient_parked (c : Client) (s : Stream) (hne : s.clients ≠ [])
    (hl : s.listLock.writer = true ∨ 0 < s.listLock.waiting) :
    getClient c s = .blocked s := by
  have hlen : 0 < s.clients.length := List.length_pos.mpr hne
  simp [getClient, hlen, RLock, hl, Outcome.andThen]

theorem getClient_front_other (c : Client) (s : Stream) (h : registeredClient)
    (rest : List registeredClient) (hcl : s.clients = h :: rest) (hc : h.c ≠ c)
    (hw : s.listLock.writer = false) (hq : s.listLock.waiting = 0) :
    getClient c s =
      .returned { s with listLock := { s.listLock with readers := s.listLock.readers + 1 } }
        none := by
  simp [getClient, hcl, RLock, hw, hq, Outcome.andThen, Front, hc]

theorem getClient_front_same (c : Client) (s : Stream) (h : registeredClient)
    (rest : List registeredClient) (hcl : s.clients = h :: rest) (hc : h.c = c)
    (hw : s.listLock.writer = false) (hq : s.listLock.waiting = 0) :
    getClient c s = .returned s (some 0) := by
  obtain ⟨cl, ⟨r, wr, wt⟩, ch, w⟩ := s
  simp only at hcl hw hq
  subst hcl hw hq
  simp [getClient, RLock, Outcome.andThen, Front, hc, RUnlock]

/-- Lookup never changes the client list, however it ends. -/
theorem getClient_clients (c : Client) (s : Stream) :
    (getClient c s).stream.clients = s.clients := by
  rcases hcl : s.clients with _ | ⟨h, rest⟩
  · rw [getClient_empty c s hcl]; simp [Outcome.stream, hcl]
  · by_cases hl : s.listLock.writer = true ∨ 0 < s.listLock.waiting
    · rw [getClient_parked c s (by simp [hcl]) hl]; simp [Outcome.stream, hcl]
    · have hw : s.listLock.writer = false := by
        cases hb : s.listLock.writer <;> simp_all
      have hq : s.listLock.waiting = 0 := by omega
      by_cases hc : h.c = c
      · rw [getClient_front_same c s h rest hcl hc hw hq]; simp [Outcome.stream, hcl]
      · rw [getClient_front_other c s h rest hcl hc hw hq]; simp [Outcome.stream, hcl]

/-- A registration of a client other than the front one parks in `addClient`:
the read lock `getClient` kept makes `Lock` wait for ever. -/
theorem Register_parks (c : Client) (s : Stream) (h : registeredClient)
    (rest : List registeredClient) (hcl : s.clients = h :: rest) (hc : h.c ≠ c)
    (hw : s.listLock.writer = false) (hq : s.listLock.waiting = 0) :
    Register c s =
      .blocked { s with listLock :=
        { readers := s.listLock.readers + 1, writer := s.listLock.writer, waiting := 1 } } := by
  rw [Register, getClient_front_other c s h rest hcl hc hw hq]
  simp [Outcome.andThen, addClient, Lock, hq]

/-! ## What each call does, by the shape of the registry -/

theorem Register_empty (c : Client) (s : Stream) (hcl : s.clients = [])
    (hw : s.listLock.writer = false) (hr : s.listLock.readers = 0) :
    Register c s = .returned { s with clients := [{ c := c, topics := [] }] } () := by
  obtain ⟨cl, ⟨r, wr, wt⟩, ch, w⟩ := s
  simp only at hcl hw hr
  subst hcl hw hr
  simp [Register, getClient, addClient, Lock, Unlock, PushBack, Outcome.andThen]

theorem Register_found (c : Client) (s : Stream) (h : registeredClient)
    (rest : List registeredClient) (hcl : s.clients = h :: rest) (hc : h.c = c)
    (hw : s.listLock.writer = false) (hq : s.listLock.waiting = 0) :
    Register c s = .returned s () := by
  simp [Register, getClient_front_same c s h rest hcl hc hw hq, Outcome.andThen]

theorem Register_behind (c : Client) (s : Stream) (hne : s.clients ≠ [])
    (hl : s.listLock.writer = true ∨ 0 < s.listLock.waiting) :
    Register c s = .blocked s := by
  simp [Register, getClient_parked c s hne hl, Outcome.andThen]

theorem Subscribe_empty (added : Option Nat) (t : String) (c : Client) (s : Stream)
    (hcl : s.clients = []) (hw : s.listLock.writer = false) (hr : s.listLock.readers = 0) :
    Subscribe added t c s =
      setTopic added t true { s with clients := [{ c := c, topics := [] }] } := by
  obtain ⟨cl, ⟨r, wr, wt⟩, ch, w⟩ := s
  simp only at hcl hw hr
  subst hcl hw hr
  simp [Subscribe, getClient, addClient, Lock, Unlock, PushBack, Outcome.andThen]

theorem Subscribe_found (added : Option Nat) (t : String) (c : Client) (s : Stream)
    (h : registeredClient) (rest : List registeredClient) (hcl : s.clients = h :: rest)
    (hc : h.c = c) (hw : s.listLock.writer = false) (hq : s.listLock.waiting = 0) :
    Subscribe added t c s =
      .returned { s with clients := { h with topics := topicsSet h.topics t true } :: rest }
        () := by
  simp [Subscribe, getClient_front_same c s h rest hcl hc hw hq, Outcome.andThen, setTopic,
    hcl, updateAt]

theorem Subscribe_parks (added : Option Nat) (t : String) (c : Client) (s : Stream)
    (h : registeredClient) (rest : List registeredClient) (hcl : s.clients = h :: rest)
    (hc : h.c ≠ c) (hw : s.listLock.writer = false) (hq : s.listLock.waiting = 0) :
    Subscribe added t c s =
      .blocked { s with listLock :=
        { readers := s.listLock.readers + 1, writer := s.listLock.writer, waiting := 1 } } := by
  rw [Subscribe, getClient_front_other c s h rest hcl hc hw hq]
  simp [Outcome.andThen, addClient, Lock, hq]

theorem Subscribe_behind (added : Option Nat) (t : String) (c : Client) (s : Stream)
    (hne : s.clients ≠ []) (hl : s.listLock.writer = true ∨ 0 < s.listLock.waiting) :
    Subscribe added t c s = .blocked s := by
  simp [Subscribe, getClient_parked c s hne hl, Outcome.andThen]

theorem Unsubscribe_empty (t : String) (c : Client) (s : Stream) (hcl : s.clients = []) :
    Unsubscribe t c s = .returned s () := by
  simp [Unsubscribe, getClient_empty c s hcl, Outcome.andThen]

theorem Unsubscribe_found (t : String) (c : Client) (s : Stream)
    (h : registeredClient) (rest : List registeredClient) (hcl : s.clients = h :: rest)
    (hc : h.c = c) (hw : s.listLock.writer = false) (hq : s.listLock.waiting = 0) :
    Unsubscribe t c s =
      .returned { s with clients := { h with topics := topicsSet h.topics t false } :: rest }
        () := by
  simp [Unsubscribe, getClient_front_same c s h rest hcl hc hw hq, Outcome.andThen, setTopic,
    hcl, updateAt]

theorem Unsubscribe_other (t : String) (c : Client) (s : Stream)
    (h : registeredClient) (rest : List registeredClient) (hcl : s.clients = h :: rest)
    (hc : h.c ≠ c) (hw : s.listLock.writer = false) (hq : s.listLock.waiting = 0) :
    Unsubscribe t c s =
      .returned { s with listLock := { s.listLock with readers := s.listLock.readers + 1 } }
        () := by
  simp [Unsubscribe, getClient_front_other c s h rest hcl hc hw hq, Outcome.andThen]

theorem Unsubscribe_behind (t : String) (c : Client) (s : Stream)
    (hne : s.clients ≠ []) (hl : s.listLock.writer = true ∨ 0 < s.listLock.waiting) :
    Unsubscribe t c s = .blocked s := by
  simp [Unsubscribe, getClient_parked c s hne hl, Outcome.andThen]

/-- The lock either turns a reader away or lets it in. -/
theorem lock_cases (s : Stream) :
    (s.listLock.writer = true ∨ 0 < s.listLock.waiting) ∨
      (s.listLock.writer = false ∧ s.listLock.waiting = 0) := by
  cases hb : s.listLock.writer
  · by_cases hq : s.listLock.waiting = 0
    · exact Or.inr ⟨rfl, hq⟩
    · exact Or.inl (Or.inr (Nat.pos_of_ne_zero hq))
  · exact Or.inl (Or.inl rfl)

/-! ## The claims -/

/-- Claim C1: Register twice should leave exactly one handle for the client.
With client 1 registered on a new stream, the first `Register(2)` parks in
`addClient` behind the read lock its own lookup kept, a second `Register(2)`
parks in the lookup behind the waiting writer, and the list holds no handle
for client 2. -/
theorem Register_twice_behind_other_front :
    Register 1 New =
      .returned { clients := [{ c := 1, topics := [] }],
                  listLock := { readers := 0, writer := false, waiting := 0 },
                  broadcast := none, shutdownWait := 0 } () ∧
    Register 2 (Register 1 New).stream =
      .blocked { clients := [{ c := 1, topics := [] }],
                 listLock := { readers := 1, writer := false, waiting := 1 },
                 broadcast := none, shutdownWait := 0 } ∧
    Register 2 (Register 2 (Register 1 New).stream).stream =
      .blocked { clients := [{ c := 1, topics := [] }],
                 listLock := { readers := 1, writer := false, waiting := 1 },
                 broadcast := none, shutdownWait := 0 } ∧
    handlesOf (Register 2 (Register 2 (Register 1 New).stream).stream).stream.clients 2 = 0 := by
  decide

/-- Claim C2: Broadcast should deliver the event once to every consumer. With
one client registered the loop never ends, and after `fuel` iterations it has
called `Send(e)` on that client `fuel` times. -/
theorem Broadcast_one_client_repeats (fuel : Nat) (e : Event) :
    (Broadcast fuel e (Register 1 New).stream).finished = false ∧
    deliveries (Broadcast fuel e (Register 1 New).stream).sends 1 e = fuel := by
  have hs : (Register 1 New).stream =
      { clients := [{ c := 1, topics := [] }],
        listLock := { readers := 0, writer := false, waiting := 0 },
        broadcast := none, shutdownWait := 0 } := by decide
  rw [hs, Broadcast_nonempty]
  simp [deliveries]

/-- Claim C3: Publish should deliver one copy to every subscribed consumer.
With client 1 registered and subscribed to "news" the loop never ends and
after `fuel` iterations has called `Send(e)` on client 1 `fuel` times; the same
holds with a second, unsubscribed client 2 behind it in the list. -/
theorem Publish_subscribed_front_repeats (added : Option Nat) (fuel : Nat) (e : Event) :
    (Publish fuel "news" e
      (Subscribe added "news" 1 (Register 1 New).stream).stream).finished = false ∧
    deliveries (Publish fuel "news" e
      (Subscribe added "news" 1 (Register 1 New).stream).stream).sends 1 e = fuel ∧
    (Publish fuel "news" e
      { clients := [{ c := 1, topics := [("news", true)] }, { c := 2, topics := [] }],
        listLock := { readers := 0, writer := false, waiting := 0 },
        broadcast := none, shutdownWait := 0 }).finished = false ∧
    deliveries (Publish fuel "news" e
      { clients := [{ c := 1, topics := [("news", true)] }, { c := 2, topics := [] }],
        listLock := { readers := 0, writer := false, waiting := 0 },
        broadcast := none, shutdownWait := 0 }).sends 1 e = fuel := by
  have hs : (Subscribe added "news" 1 (Register 1 New).stream).stream =
      { clients := [{ c := 1, topics := [("news", true)] }],
        listLock := { readers := 0, writer := false, waiting := 0 },
        broadcast := none, shutdownWait := 0 } := by
    have h1 : (Register 1 New).stream =
        { clients := [{ c := 1, topics := [] }],
          listLock := { readers := 0, writer := false, waiting := 0 },
          broadcast := none, shutdownWait := 0 } := by decide
    rw [h1, Subscribe_found added "news" 1 _ { c := 1, topics := [] } [] rfl rfl rfl rfl]
    simp [Outcome.stream, topicsSet]
  rw [hs, Publish_nonempty, Publish_nonempty]
  have ht : topicsGet [("news", true)] "news" = true := by decide
  simp [deliveries, ht]

/-- Claim C4: Subscribe should register an absent client and mark the topic.
With client 1 registered on a new stream, `Subscribe(t, 2)` parks in
`addClient` whatever the topic: it does not return, the list still has one
handle and none for client 2. -/
theorem Subscribe_absent_behind_other_front (added : Option Nat) (t : String) :
    Subscribe added t 2 (Register 1 New).stream =
      .blocked { clients := [{ c := 1, topics := [] }],
                 listLock := { readers := 1, writer := false, waiting := 1 },
                 broadcast := none, shutdownWait := 0 } ∧
    (Subscribe added t 2 (Register 1 New).stream).isReturned = false ∧
    (Subscribe added t 2 (Register 1 New).stream).stream.clients.length = 1 ∧
    handlesOf (Subscribe added t 2 (Register 1 New).stream).stream.clients 2 = 0 := by
  have h1 : (Register 1 New).stream =
      { clients := [{ c := 1, topics := [] }],
        listLock := { readers := 0, writer := false, waiting := 0 },
        broadcast := none, shutdownWait := 0 } := by decide
  rw [h1, Subscribe_parks added t 2 _ { c := 1, topics := [] } [] rfl (by decide) rfl rfl]
  simp [Outcome.isReturned, Outcome.stream, handlesOf]

/-- Claim C5: Unsubscribe should clear the topic of a client registered at any
position. With client 2 second in the list and subscribed to "news",
`Unsubscribe("news", 2)` returns with the list untouched (client 2 is still
subscribed) and one read lock kept, and a following Broadcast never calls
`Send` on client 2. -/
theorem Unsubscribe_second_position_keeps_topic :
    Unsubscribe "news" 2
      { clients := [{ c := 1, topics := [] }, { c := 2, topics := [("news", true)] }],
        listLock := { readers := 0, writer := false, waiting := 0 },
        broadcast := none, shutdownWait := 0 } =
      .returned
        { clients := [{ c := 1, topics := [] }, { c := 2, topics := [("news", true)] }],
          listLock := { readers := 1, writer := false, waiting := 0 },
          broadcast := none, shutdownWait := 0 } () ∧
    interested [{ c := 1, topics := [] }, { c := 2, topics := [("news", true)] }] 2 "news" = true ∧
    ∀ (fuel : Nat) (e : Event),
      deliveries (Broadcast fuel e
        { clients := [{ c := 1, topics := [] }, { c := 2, topics := [("news", true)] }],
          listLock := { readers := 1, writer := false, waiting := 0 },
          broadcast := none, shutdownWait := 0 }).sends 2 e = 0 := by
  refine ⟨by decide, by decide, ?_⟩
  intro fuel e
  rw [Broadcast_nonempty]
  simp [deliveries, List.count_eq_zero, List.mem_replicate]

/-- Claim C6: Register should always succeed. With client 1 registered on a
new stream, `Register` of any other client does not return: it parks on
`Lock`, and the client has no handle. -/
theorem Register_other_client_parks (c : Client) :
    (Register (c + 2) (Register 1 New).stream).isReturned = false ∧
    Register (c + 2) (Register 1 New).stream =
      .blocked { clients := [{ c := 1, topics := [] }],
                 listLock := { readers := 1, writer := false, waiting := 1 },
                 broadcast := none, shutdownWait := 0 } ∧
    handlesOf (Register (c + 2) (Register 1 New).stream).stream.clients (c + 2) = 0 := by
  have h1 : (Register 1 New).stream =
      { clients := [{ c := 1, topics := [] }],
        listLock := { readers := 0, writer := false, waiting := 0 },
        broadcast := none, shutdownWait := 0 } := by decide
  rw [h1, Register_parks (c + 2) _ { c := 1, topics := [] } [] rfl (by simp) rfl rfl]
  simp [Outcome.isReturned, Outcome.stream, handlesOf]

/-- Claim C7: no two handles of the client list should be for the same client.
Two calls `Register(1)` that overlap on the new stream: the first call looks
client 1 up and gets nil, the list being empty (no lock is taken on an empty
list); the second call looks client 1 up in the stream as the first lookup
left it and gets nil too; then each call goes on to `addClient(1)`, one after
the other. The list then holds two handles for client 1. -/
theorem Register_overlapping_adds_client_twice :
    getClient 1 New = .returned New none ∧
    getClient 1 (getClient 1 New).stream = .returned New none ∧
    addClient 1 (getClient 1 (getClient 1 New).stream).stream =
      .returned { clients := [{ c := 1, topics := [] }],
                  listLock := { readers := 0, writer := false, waiting := 0 },
                  broadcast := none, shutdownWait := 0 } () ∧
    addClient 1 (addClient 1 (getClient 1 (getClient 1 New).stream).stream).stream =
      .returned { clients := [{ c := 1, topics := [] }, { c := 1, topics := [] }],
                  listLock := { readers := 0, writer := false, waiting := 0 },
                  broadcast := none, shutdownWait := 0 } () ∧
    handlesOf
      (addClient 1 (addClient 1 (getClient 1 (getClient 1 New).stream).stream).stream).stream.clients
      1 = 2 ∧
    ¬ ((addClient 1
        (addClient 1 (getClient 1 (getClient 1 New).stream).stream).stream).stream.clients.map
          fun h => h.c).Nodup := by
  decide

/-- Claim C8, as stated, fails: with client 1 registered and subscribed to
"news", after `CloseTopic("news")` its handle still has "news" in its interest
set and a following `Publish("news", 7)` calls `Send` on it. -/
theorem CloseTopic_keeps_interest_example :
    ¬ (∀ h ∈ (CloseTopic "news"
          (Subscribe none "news" 1 (Register 1 New).stream).stream).stream.clients,
        topicsGet h.topics "news" = false) ∧
    (Publish 1 "news" 7 (CloseTopic "news"
        (Subscribe none "news" 1 (Register 1 New).stream).stream).stream).sends = [(1, 7)] := by
  decide

/-- Claim C8, amended: `CloseTopic(t)` returns and leaves the stream as it
was, so each handle has `t` in its interest set after the call exactly when it
had before, and a following `Publish(t, e)` makes the `Send` calls it would have
made without the call. -/
theorem CloseTopic_changes_nothing (t : String) (s : Stream) :
    (CloseTopic t s).isReturned = true ∧
    (CloseTopic t s).stream.clients = s.clients ∧
    (∀ c : Client, interested (CloseTopic t s).stream.clients c t = interested s.clients c t) ∧
    ∀ (fuel : Nat) (e : Event),
      Publish fuel t e (CloseTopic t s).stream = Publish fuel t e s := by
  refine ⟨rfl, rfl, fun _ => rfl, fun _ _ => rfl⟩

/-- Claim C9, as stated, fails: with client 1 registered, a `Broadcast` and a
`Publish` issued after `Shutdown()` still call `Send` on client 1. -/
theorem Shutdown_then_delivery_example :
    ¬ ((Broadcast 1 7 (Shutdown (Register 1 New).stream).stream).sends = []) ∧
    ¬ ((Publish 1 "news" 7 (Shutdown
        (Subscribe none "news" 1 (Register 1 New).stream).stream).stream).sends = []) := by
  decide

/-- Claim C9, amended: `Shutdown()` returns and leaves the stream as it was;
a Broadcast or Publish issued after it makes the `Send` calls, and ends or
goes on, as it would have without the Shutdown. -/
theorem Shutdown_changes_nothing (s : Stream) :
    (Shutdown s).isReturned = true ∧
    (Shutdown s).stream = s ∧
    (∀ (fuel : Nat) (e : Event), Broadcast fuel e (Shutdown s).stream = Broadcast fuel e s) ∧
    ∀ (fuel : Nat) (t : String) (e : Event),
      Publish fuel t e (Shutdown s).stream = Publish fuel t e s := by
  refine ⟨rfl, rfl, fun _ _ => rfl, fun _ _ _ => rfl⟩

/-- Claim C10: when no handle of the list is for client `c`, `Unsubscribe(t, c)`
leaves the client list (its members, their order and every topic map) as it
was; and it returns whenever the lock lets a reader in. -/
theorem Unsubscribe_unknown_keeps_registry (t : String) (c : Client) (s : Stream)
    (hc : ∀ h ∈ s.clients, h.c ≠ c) :
    (Unsubscribe t c s).stream.clients = s.clients ∧
    (s.listLock.writer = false → s.listLock.waiting = 0 →
      (Unsubscribe t c s).isReturned = true) := by
  rcases hcl : s.clients with _ | ⟨h, rest⟩
  · rw [Unsubscribe_empty t c s hcl]
    simp [Outcome.stream, Outcome.isReturned, hcl]
  · have hne : h.c ≠ c := hc h (by simp [hcl])
    rcases lock_cases s with hl | ⟨hw, hq⟩
    · rw [Unsubscribe_behind t c s (by simp [hcl]) hl]
      refine ⟨by simp [Outcome.stream, hcl], ?_⟩
      intro hw hq
      rcases hl with hl | hl
      · simp [hw] at hl
      · omega
    · rw [Unsubscribe_other t c s h rest hcl hne hw hq]
      simp [Outcome.stream, Outcome.isReturned, hcl]

/-- Claim C10, at the registry holding client 1 subscribed to "news", for the
unknown client 2. -/
theorem Unsubscribe_unknown_keeps_registry_witness :
    (∀ h ∈ (Subscribe none "news" 1 (Register 1 New).stream).stream.clients, h.c ≠ 2) ∧
    (Unsubscribe "news" 2 (Subscribe none "news" 1 (Register 1 New).stream).stream).stream.clients
      = (Subscribe none "news" 1 (Register 1 New).stream).stream.clients ∧
    (Unsubscribe "news" 2
      (Subscribe none "news" 1 (Register 1 New).stream).stream).isReturned = true :=
  ⟨by decide,
   (Unsubscribe_unknown_keeps_registry "news" 2
      (Subscribe none "news" 1 (Register 1 New).stream).stream (by decide)).1,
   (Unsubscribe_unknown_keeps_registry "news" 2
      (Subscribe none "news" 1 (Register 1 New).stream).stream (by decide)).2
      (by decide) (by decide)⟩

/-! ## Delivery passes and the dispatcher loop -/

theorem broadcastLoopTo_eq (sink : Client → SinkStatus) (e : Event) (s : Stream) (fuel : Nat)
    (el : Option Nat) (log : List (Client × Event)) :
    broadcastLoopTo sink e s fuel el log =
      { fanout := broadcastLoop e s.clients fuel el log, stream := s } := by
  induction fuel generalizing log with
  | zero => cases el <;> simp [broadcastLoopTo, broadcastLoop]
  | succ n ih =>
    cases el with
    | none => simp [broadcastLoopTo, broadcastLoop]
    | some i =>
      cases hi : s.clients.get? i with
      | none => simp only [broadcastLoopTo, broadcastLoop, hi]
      | some cli => simp only [broadcastLoopTo, broadcastLoop, hi, SendTo, ih]

theorem publishLoopTo_eq (sink : Client → SinkStatus) (t : String) (e : Event) (s : Stream)
    (fuel : Nat) (el : Option Nat) (log : List (Client × Event)) :
    publishLoopTo sink t e s fuel el log =
      { fanout := publishLoop t e s.clients fuel el log, stream := s } := by
  induction fuel generalizing log with
  | zero => cases el <;> simp [publishLoopTo, publishLoop]
  | succ n ih =>
    cases el with
    | none => simp [publishLoopTo, publishLoop]
    | some i =>
      cases hi : s.clients.get? i with
      | none => simp only [publishLoopTo, publishLoop, hi]
      | some cli =>
        simp only [publishLoopTo, publishLoop, hi, SendTo, ih]

theorem runLoop_sends (fuel : Nat) (s : Stream) (log : List (Client × Event)) :
    (runLoop fuel s log).sends = log := by
  induction fuel generalizing s with
  | zero => simp [runLoop]
  | succ n ih =>
    simp only [runLoop]
    split
    · rfl
    · rfl
    · simp [sendAll, ih]

/-- Claim C11, as stated, fails: with client 1 registered and its sink closed,
a Broadcast calls `Send` on client 1, which reports closed, and client 1 still
has its handle afterwards; the same for a Publish on a topic client 1 is
subscribed to. -/
theorem closed_sink_stays_registered_example :
    (SendTo (fun _ => SinkStatus.closed) 1 7 []).2 = SinkStatus.closed ∧
    (BroadcastTo (fun _ => SinkStatus.closed) 1 7 (Register 1 New).stream).fanout.sends
      = [(1, 7)] ∧
    ¬ (handlesOf
        (BroadcastTo (fun _ => SinkStatus.closed) 1 7 (Register 1 New).stream).stream.clients 1
      = 0) ∧
    (PublishTo (fun _ => SinkStatus.closed) 1 "news" 7
      (Subscribe none "news" 1 (Register 1 New).stream).stream).fanout.sends = [(1, 7)] ∧
    ¬ (handlesOf
        (PublishTo (fun _ => SinkStatus.closed) 1 "news" 7
          (Subscribe none "news" 1 (Register 1 New).stream).stream).stream.clients 1
      = 0) := by
  decide

/-- Claim C11, amended: a consumer whose sink reports closed during a delivery
pass stays registered. Broadcast and Publish drop what `Send` reports: the
stream after the pass is the stream before it, whatever the sinks report, and
the `Send` calls made do not depend on the reports. -/
theorem delivery_pass_keeps_registry (sink : Client → SinkStatus) (fuel : Nat) (t : String)
    (e : Event) (s : Stream) :
    (BroadcastTo sink fuel e s).stream = s ∧
    (PublishTo sink fuel t e s).stream = s ∧
    (∀ c : Client, handlesOf (BroadcastTo sink fuel e s).stream.clients c = handlesOf s.clients c) ∧
    (∀ c : Client, handlesOf (PublishTo sink fuel t e s).stream.clients c = handlesOf s.clients c) ∧
    (BroadcastTo sink fuel e s).fanout = Broadcast fuel e s ∧
    (PublishTo sink fuel t e s).fanout = Publish fuel t e s := by
  simp [BroadcastTo, PublishTo, broadcastLoopTo_eq, publishLoopTo_eq, Broadcast, Publish]

/-- Claim C12: lookup should find a client at every position. With clients 1
and 2 in the list, in this order, `getClient(2)` returns nil although client 2
has a handle, and keeps one read lock. -/
theorem getClient_misses_second_position :
    getClient 2
      { clients := [{ c := 1, topics := [] }, { c := 2, topics := [] }],
        listLock := { readers := 0, writer := false, waiting := 0 },
        broadcast := none, shutdownWait := 0 } =
      .returned
        { clients := [{ c := 1, topics := [] }, { c := 2, topics := [] }],
          listLock := { readers := 1, writer := false, waiting := 0 },
          broadcast := none, shutdownWait := 0 } none ∧
    handlesOf [{ c := 1, topics := [] }, { c := 2, topics := [] }] 2 = 1 := by
  decide

/-- Claim C13, as stated, fails: after `Register(1)` and a `Register(2)` that
parked as a waiting writer, the list is not empty and its front handle is not
for client 3, yet `getClient(3)` does not return: it parks in `RLock`, and no
further read lock is held. -/
theorem getClient_behind_waiting_writer_example :
    (Register 2 (Register 1 New).stream).stream.clients = [{ c := 1, topics := [] }] ∧
    (getClient 3 (Register 2 (Register 1 New).stream).stream).isReturned = false ∧
    getClient 3 (Register 2 (Register 1 New).stream).stream =
      .blocked (Register 2 (Register 1 New).stream).stream ∧
    ¬ ((getClient 3 (Register 2 (Register 1 New).stream).stream).stream.listLock.readers =
        (Register 2 (Register 1 New).stream).stream.listLock.readers + 1) := by
  decide

/-- Claim C13, amended: on a non-empty list whose front handle is not for `c`,
with a lock that no writer holds or waits for, `getClient(c)` returns nil with
one more read lock held than before; on an empty list, and when the front
handle is for `c`, the lock after the call is the lock before it. -/
theorem getClient_read_lock_balance (c : Client) (s : Stream) :
    (∀ (h : registeredClient) (rest : List registeredClient),
      s.clients = h :: rest → h.c ≠ c →
      s.listLock.writer = false → s.listLock.waiting = 0 →
      getClient c s =
        .returned { s with listLock := { s.listLock with readers := s.listLock.readers + 1 } }
          none) ∧
    (s.clients = [] → (getClient c s).stream.listLock = s.listLock) ∧
    (∀ (h : registeredClient) (rest : List registeredClient),
      s.clients = h :: rest → h.c = c → (getClient c s).stream.listLock = s.listLock) := by
  refine ⟨fun h rest hcl hc hw hq => getClient_front_other c s h rest hcl hc hw hq, ?_, ?_⟩
  · intro hcl
    rw [getClient_empty c s hcl]
    rfl
  · intro h rest hcl hc
    rcases lock_cases s with hl | ⟨hw, hq⟩
    · rw [getClient_parked c s (by simp [hcl]) hl]
      rfl
    · rw [getClient_front_same c s h rest hcl hc hw hq]
      rfl

/-- Claim C13, at the list holding client 1 for the lookups of client 2 (front
handle for another client) and of client 1 (front handle found), and at the
new stream (empty list). -/
theorem getClient_read_lock_balance_witness :
    getClient 2 (Register 1 New).stream =
      .returned
        { clients := [{ c := 1, topics := [] }],
          listLock := { readers := 1, writer := false, waiting := 0 },
          broadcast := none, shutdownWait := 0 } none ∧
    (getClient 2 New).stream.listLock = New.listLock ∧
    (getClient 1 (Register 1 New).stream).stream.listLock = (Register 1 New).stream.listLock :=
  ⟨(getClient_read_lock_balance 2 (Register 1 New).stream).1 { c := 1, topics := [] } []
      (by decide) (by decide) (by decide) (by decide),
   (getClient_read_lock_balance 2 New).2.1 (by decide),
   (getClient_read_lock_balance 1 (Register 1 New).stream).2.2 { c := 1, topics := [] } []
      (by decide) (by decide)⟩

/-- Claim C14, as stated, fails: with client 1 registered and event 7 in the
intake channel, `sendAll(7)` calls `Send` on nobody; `run` pulls the event
(the buffer is empty afterwards), makes no `Send` call and parks on the next
receive. -/
theorem sendAll_delivers_to_nobody_example :
    ¬ (∀ h ∈ [({ c := 1, topics := [] } : registeredClient)],
        0 < deliveries
          (sendAll 7
            { clients := [{ c := 1, topics := [] }],
              listLock := { readers := 0, writer := false, waiting := 0 },
              broadcast := some { buf := [], closed := false }, shutdownWait := 0 } []).2
          h.c 7) ∧
    run 2
      { clients := [{ c := 1, topics := [] }],
        listLock := { readers := 0, writer := false, waiting := 0 },
        broadcast := some { buf := [7], closed := false }, shutdownWait := 0 } =
      { ending := some (.blocked
          { clients := [{ c := 1, topics := [] }],
            listLock := { readers := 0, writer := false, waiting := 0 },
            broadcast := some { buf := [], closed := false }, shutdownWait := 0 }),
        sends := [] } := by
  decide

/-- Claim C14, amended: `sendAll(ev)` calls `Send` on nobody and leaves the
stream as it was, so the dispatcher loop makes no `Send` call for the events
it pulls from the intake channel, however long it runs. -/
theorem sendAll_sends_nothing (ev : Event) (s : Stream) (log : List (Client × Event))
    (fuel : Nat) :
    sendAll ev s log = (s, log) ∧
    (∀ c : Client, deliveries (sendAll ev s []).2 c ev = 0) ∧
    (run fuel s).sends = [] := by
  refine ⟨rfl, fun c => by simp [sendAll, deliveries], ?_⟩
  simp [run, runLoop_sends]

/-- Claim C15: the fan-out loops should end after one visit of each handle. On
every list that is not empty neither loop ends within any number of
iterations, and after `fuel` iterations Broadcast has made `fuel` calls of
`Send`, all on the front client. -/
theorem fanout_loops_never_end (h : registeredClient) (rest : List registeredClient)
    (lk : RWMutex) (ch : Option Chan) (w : Int) (fuel : Nat) (t : String) (e : Event) :
    (Broadcast fuel e
      { clients := h :: rest, listLock := lk, broadcast := ch, shutdownWait := w }).finished
        = false ∧
    (Publish fuel t e
      { clients := h :: rest, listLock := lk, broadcast := ch, shutdownWait := w }).finished
        = false ∧
    (Broadcast fuel e
      { clients := h :: rest, listLock := lk, broadcast := ch, shutdownWait := w }).sends.length
        = fuel ∧
    deliveries (Broadcast fuel e
      { clients := h :: rest, listLock := lk, broadcast := ch, shutdownWait := w }).sends h.c e
        = fuel := by
  rw [Broadcast_nonempty, Publish_nonempty]
  simp [deliveries]

end eventsource
